import Mathlib

/-!
Verification development for the Product-Lifecycle-Visualizer repository.

The repository turns a product description into a five-stage lifecycle record.
The presentation client (frontend/app/page.tsx) is embedded directly from the
TypeScript source.  The backend service (Lifecycle Store, Provider Client,
Content Synthesizer, Stage Generator, API layer) is written in Rust and its
source is not part of the checked tree; those components are modelled from the
specification, as flagged on each definition.
-/

namespace PLV

/-- JavaScript `String.prototype.startsWith`, used by `getImageUrl` in
frontend/app/page.tsx: `strStartsWith s p` holds when `p` is a prefix of `s`. -/
def strStartsWith (s p : String) : Bool :=
  p.data.isPrefixOf s.data

/-- Stage record, from the `LifecycleStage` interface in frontend/app/page.tsx:
`stage_name`, `prompt`, `description`, optional `image_base64`, `last_updated`. -/
structure LifecycleStage where
  stage_name : String
  prompt : String
  description : String
  image_base64 : Option String
  last_updated : String
deriving Repr, DecidableEq

/-- Lifecycle record, from the `LifecycleData` interface in frontend/app/page.tsx. -/
structure LifecycleData where
  id : String
  product_description : String
  stages : List LifecycleStage
  created_at : String
  updated_at : String
  constraints : List String
deriving Repr, DecidableEq

/-- `getImageUrl` from frontend/app/page.tsx (the copies in `HTMLCardOverlay` and
`StageCard`): pick a data-URL MIME type from the base64 payload prefix;
unknown prefixes default to PNG. -/
def getImageUrl (base64 : String) : String :=
  if strStartsWith base64 "PHN2Zyg" then
    "data:image/svg+xml;base64," ++ base64
  else if strStartsWith base64 "iVBORw0KGgo" then
    "data:image/png;base64," ++ base64
  else if strStartsWith base64 "/9j/" then
    "data:image/jpeg;base64," ++ base64
  else
    "data:image/png;base64," ++ base64

/-- `getImageUrl` from the `StageModal` component in frontend/app/page.tsx:
identical prefix dispatch but guarded by an empty-string check. -/
def modalGetImageUrl (base64 : String) : String :=
  if base64 = "" then ""
  else if strStartsWith base64 "PHN2Zyg" then "data:image/svg+xml;base64," ++ base64
  else if strStartsWith base64 "iVBORw0KGgo" then "data:image/png;base64," ++ base64
  else if strStartsWith base64 "/9j/" then "data:image/jpeg;base64," ++ base64
  else "data:image/png;base64," ++ base64

/-- Canonical stage names, in order, from the `stages` list in
`generateLifecycle` (frontend/app/page.tsx) and the README stage order. -/
def canonicalStageNames : List String :=
  ["Raw Materials", "Manufacturing", "Distribution", "Usage",
   "End-of-Life / Recycling"]

/-- Modelled from the spec: error taxonomy of the backend service (the Rust
backend source is absent from src/): `NotFound`, `InvalidIndex`,
`InvalidInput` (section 7). -/
inductive ApiError
  | NotFound
  | InvalidIndex
  | InvalidInput
deriving Repr, DecidableEq

/-- Modelled from the spec: Lifecycle Store `Create` (section 4.1, Rust backend
absent from src/): build a skeleton with 5 empty stages pre-named in canonical
order, record the creation timestamp. -/
def createLifecycle (newId productDescription : String)
    (constraints : List String) (now : String) : LifecycleData :=
  { id := newId
    product_description := productDescription
    stages := canonicalStageNames.map fun name =>
      { stage_name := name
        prompt := ""
        description := ""
        image_base64 := none
        last_updated := now }
    created_at := now
    updated_at := now
    constraints := constraints }

/-- Modelled from the spec: the in-memory registry of lifecycle records keyed
by identifier (section 4.1, Rust backend absent from src/). -/
abbrev Store : Type := List (String × LifecycleData)

/-- Modelled from the spec: Lifecycle Store `Get` lookup (section 4.1, Rust
backend absent from src/). -/
def storeGet (s : Store) (id : String) : Option LifecycleData :=
  (List.find? (fun p => p.1 == id) s).map (fun p => p.2)

/-- Modelled from the spec: replace the record held under `id` (section 4.1,
Rust backend absent from src/). -/
def storeSet (s : Store) (id : String) (lc : LifecycleData) : Store :=
  List.map (fun p => if p.1 == id then (p.1, lc) else p) s

/-- Modelled from the spec: the atomic per-stage replacement applied by
`UpdateStage` (section 4.1, Rust backend absent from src/): replace the stage
at `idx` and bump `updated_at`. -/
def applyStageUpdate (lc : LifecycleData) (idx : Nat) (st : LifecycleStage)
    (now : String) : LifecycleData :=
  { lc with stages := lc.stages.set idx st, updated_at := now }

/-- Modelled from the spec: Lifecycle Store `UpdateStage` (section 4.1, Rust
backend absent from src/): `NotFound` if the id is unknown, `InvalidIndex` if
the index is not in [0,5); otherwise atomically replace the stage at the
index, bump `updated_at`, and return the updated full record.  The error paths
return the store unchanged. -/
def updateStage (s : Store) (id : String) (idx : Int) (st : LifecycleStage)
    (now : String) : Store × Except ApiError LifecycleData :=
  match storeGet s id with
  | none => (s, Except.error ApiError.NotFound)
  | some lc =>
    if 0 ≤ idx ∧ idx < 5 then
      let lc2 := applyStageUpdate lc idx.toNat st now
      (storeSet s id lc2, Except.ok lc2)
    else
      (s, Except.error ApiError.InvalidIndex)

/-- Modelled from the spec: the `POST /api/lifecycle/create` handler (sections
4.5 and 6, Rust backend absent from src/): validate that the description is
non-empty, then delegate to the Store's `Create` and return the skeleton. -/
def apiCreate (s : Store) (newId productDescription : String) (now : String) :
    Store × Except ApiError LifecycleData :=
  if productDescription = "" then
    (s, Except.error ApiError.InvalidInput)
  else
    let lc := createLifecycle newId productDescription [] now
    ((newId, lc) :: s, Except.ok lc)

/-- Modelled from the spec: Provider Client error taxonomy (section 4.2, Rust
backend absent from src/). -/
inductive ProviderError
  | Unauthorized
  | Unavailable
  | RateLimited
  | InvalidResponse
deriving Repr, DecidableEq

/-- Modelled from the spec: the Provider Client mode flag — text, image, or
both (section 4.2, Rust backend absent from src/). -/
inductive ProviderMode
  | text
  | image
  | both
deriving Repr, DecidableEq

/-- Modelled from the spec: a successful provider response carrying the
requested content channels (section 4.2, Rust backend absent from src/). -/
structure ProviderContent where
  text : Option String
  imageBase64 : Option String
deriving Repr, DecidableEq

/-- Modelled from the spec: provider configuration — credential and base URL
(section 6 environment configuration, Rust backend absent from src/). -/
structure ProviderConfig where
  credential : String
  baseUrl : String
deriving Repr, DecidableEq

/-- The demo-mode sentinel credential value, from the README environment table
(`GEMINI_API_KEY` defaults to `DEMO_KEY`). -/
def demoSentinel : String := "DEMO_KEY"

/-- Modelled from the spec: the Provider Client call (section 4.2, Rust
backend absent from src/).  The external service is an oracle `network`; a
configured demo credential is treated as `Unauthorized` without attempting the
network call. -/
def providerCall
    (network : String → ProviderMode → Except ProviderError ProviderContent)
    (cfg : ProviderConfig) (prompt : String) (mode : ProviderMode) :
    Except ProviderError ProviderContent :=
  if cfg.credential = demoSentinel then
    Except.error ProviderError.Unauthorized
  else
    network prompt mode

/-- Modelled from the spec: the text-channel provider request issued by the
Stage Generator (sections 4.2 and 4.4, Rust backend absent from src/); a
response missing the requested channel is malformed (`InvalidResponse`). -/
def callText
    (network : String → ProviderMode → Except ProviderError ProviderContent)
    (cfg : ProviderConfig) (prompt : String) : Except ProviderError String :=
  match providerCall network cfg prompt ProviderMode.text with
  | Except.ok c =>
    match c.text with
    | some t => Except.ok t
    | none => Except.error ProviderError.InvalidResponse
  | Except.error e => Except.error e

/-- Modelled from the spec: the image-channel provider request issued by the
Stage Generator (sections 4.2 and 4.4, Rust backend absent from src/). -/
def callImage
    (network : String → ProviderMode → Except ProviderError ProviderContent)
    (cfg : ProviderConfig) (prompt : String) : Except ProviderError String :=
  match providerCall network cfg prompt ProviderMode.image with
  | Except.ok c =>
    match c.imageBase64 with
    | some b => Except.ok b
    | none => Except.error ProviderError.InvalidResponse
  | Except.error e => Except.error e

/-- Modelled from the spec: Content Synthesizer text, paragraph (a) — what
happens at this stage (section 4.3, Rust backend absent from src/). -/
def stagePara (stageName productDescription : String) : String :=
  "During the " ++ stageName ++ " stage, " ++ productDescription ++
    " moves through the activities characteristic of this phase of its lifecycle."

/-- Modelled from the spec: Content Synthesizer text, paragraph (b) — the
environmental footprint of this stage (section 4.3, Rust backend absent from
src/). -/
def footprintPara (stageName productDescription : String) : String :=
  "The environmental footprint of the " ++ stageName ++
    " stage covers the energy, emissions and material impacts tied to " ++
    productDescription ++ "."

/-- Modelled from the spec: Content Synthesizer text, paragraph (c) — at least
one improvement lever (section 4.3, Rust backend absent from src/). -/
def leverPara (stageName productDescription : String) : String :=
  "One improvement lever for the " ++ stageName ++ " stage of " ++
    productDescription ++ " is to choose lower-impact inputs and reduce waste."

/-- Modelled from the spec: Content Synthesizer fallback text — the structured
three-paragraph template parameterized by stage name and product description
(section 4.3, Rust backend absent from src/). -/
def fallbackText (stageName productDescription : String) : String :=
  stagePara stageName productDescription ++ "\n\n" ++
    footprintPara stageName productDescription ++ "\n\n" ++
    leverPara stageName productDescription

/-- The base64 signature of the synthesized SVG placeholder — the exact prefix
the frontend `getImageUrl` recognizes as SVG. -/
def svgSignature : String := "PHN2Zyg"

/-- Modelled from the spec: per-stage-index theme colors of the synthesized
placeholder image (section 4.3, Rust backend absent from src/). -/
def stageThemeColors : List String :=
  ["#8B5E3C", "#4A90D9", "#F5A623", "#2ECC71", "#9B59B6"]

/-- Modelled from the spec: Content Synthesizer placeholder image — an encoded
vector placeholder carrying the synthesized-SVG signature and themed per stage
index (section 4.3, Rust backend absent from src/). -/
def fallbackImageBase64 (stageIdx : Nat) : String :=
  svgSignature ++
    ("fill-" ++ stageThemeColors.getD stageIdx "#888888" ++ "-stage-" ++
      toString stageIdx)

/-- Modelled from the spec: the deterministic stage prompt built from product
description, stage name and constraints (section 4.4 step 1, Rust backend
absent from src/). -/
def buildStagePrompt (productDescription stageName : String)
    (constraints : List String) : String :=
  "Describe and illustrate the " ++ stageName ++
    " stage of the lifecycle of " ++ productDescription ++
    (if constraints = [] then ""
     else " under constraints: " ++ String.intercalate "; " constraints) ++ "."

/-- Modelled from the spec: the Stage Generator merge (section 4.4, Rust
backend absent from src/): record the prompt verbatim, use provider output per
channel on success and the Content Synthesizer output on that channel's
failure, stamp `last_updated`. -/
def generateStage (productDescription : String) (constraints : List String)
    (stageIdx : Nat) (stageName : String)
    (textResult imageResult : Except ProviderError String) (now : String) :
    LifecycleStage :=
  { stage_name := stageName
    prompt := buildStagePrompt productDescription stageName constraints
    description :=
      match textResult with
      | Except.ok t => t
      | Except.error _ => fallbackText stageName productDescription
    image_base64 := some
      (match imageResult with
       | Except.ok b => b
       | Except.error _ => fallbackImageBase64 stageIdx)
    last_updated := now }

/-- Modelled from the spec: stage generation with the provider configured with
the demo credential (glossary "Demo mode", Rust backend absent from src/):
both channel calls go through the Provider Client against the demo
configuration. -/
def demoStage
    (network : String → ProviderMode → Except ProviderError ProviderContent)
    (baseUrl productDescription : String) (constraints : List String)
    (stageIdx : Nat) (now : String) : LifecycleStage :=
  let stageName := canonicalStageNames.getD stageIdx ""
  let prompt := buildStagePrompt productDescription stageName constraints
  let cfg : ProviderConfig := { credential := demoSentinel, baseUrl := baseUrl }
  generateStage productDescription constraints stageIdx stageName
    (callText network cfg prompt) (callImage network cfg prompt) now

end PLV

open PLV

theorem PLV.strStartsWith_append (s r : String) :
    strStartsWith (s ++ r) s = true := by
  simp only [strStartsWith, String.data_append]
  rw [List.isPrefixOf_iff_prefix]
  exact List.prefix_append _ _

theorem PLV.fallbackText_length (n d : String) :
    11 ≤ (fallbackText n d).length := by
  have h1 : ("During the ").length = 11 := rfl
  simp only [fallbackText, stagePara, String.length_append, h1]
  omega

theorem PLV.fallbackText_ne_empty (n d : String) : fallbackText n d ≠ "" := by
  intro h
  have h2 := fallbackText_length n d
  rw [h] at h2
  exact (by decide : ¬ (11 ≤ ("" : String).length)) h2

/-- C1: for every payload delivered to a consumer (the consumers only call the
helper on a non-empty `image_base64`), all copies of `getImageUrl` agree, and
the MIME type is chosen from the payload signature: the SVG signature maps to
image/svg+xml, the PNG signature to image/png, the JPEG signature to
image/jpeg, and any unknown signature defaults to the PNG interpretation. -/
theorem C1_mime_type_from_signature (b : String) (hb : b ≠ "") :
    modalGetImageUrl b = getImageUrl b ∧
    (strStartsWith b "PHN2Zyg" = true →
      getImageUrl b = "data:image/svg+xml;base64," ++ b) ∧
    (strStartsWith b "PHN2Zyg" = false → strStartsWith b "iVBORw0KGgo" = true →
      getImageUrl b = "data:image/png;base64," ++ b) ∧
    (strStartsWith b "PHN2Zyg" = false → strStartsWith b "iVBORw0KGgo" = false →
      strStartsWith b "/9j/" = true →
      getImageUrl b = "data:image/jpeg;base64," ++ b) ∧
    (strStartsWith b "PHN2Zyg" = false → strStartsWith b "iVBORw0KGgo" = false →
      strStartsWith b "/9j/" = false →
      getImageUrl b = "data:image/png;base64," ++ b) := by
  refine ⟨?_, ?_, ?_, ?_, ?_⟩
  · simp only [modalGetImageUrl, getImageUrl, if_neg hb]
  · intro h; simp [getImageUrl, h]
  · intro h1 h2; simp [getImageUrl, h1, h2]
  · intro h1 h2 h3; simp [getImageUrl, h1, h2, h3]
  · intro h1 h2 h3; simp [getImageUrl, h1, h2, h3]

/-- Witness for C1 at the concrete PNG-signed payload "iVBORw0KGgoAAAA". -/
theorem C1_mime_type_from_signature_witness :
    getImageUrl "iVBORw0KGgoAAAA" = "data:image/png;base64," ++ "iVBORw0KGgoAAAA" :=
  (C1_mime_type_from_signature "iVBORw0KGgoAAAA" (by decide)).2.2.1
    (by decide) (by decide)

/-- C2: for every non-empty product description, `Create` succeeds and yields a
lifecycle whose stage sequence has length exactly 5, whose stage names are the
canonical names in canonical order (index 0 is "Raw Materials"), and whose
stages are all ungenerated (empty description, null image). -/
theorem C2_create_skeleton (s : Store) (newId d now : String) (hd : d ≠ "") :
    ∃ lc : LifecycleData,
      (apiCreate s newId d now).2 = Except.ok lc ∧
      lc.stages.length = 5 ∧
      lc.stages.map LifecycleStage.stage_name = canonicalStageNames ∧
      (lc.stages.map LifecycleStage.stage_name).head? = some "Raw Materials" ∧
      ∀ st ∈ lc.stages, st.description = "" ∧ st.image_base64 = none := by
  refine ⟨createLifecycle newId d [] now, ?_, ?_, ?_, ?_, ?_⟩
  · simp [apiCreate, hd]
  · simp [createLifecycle, canonicalStageNames]
  · simp [createLifecycle, canonicalStageNames]
  · simp [createLifecycle, canonicalStageNames]
  · intro st hst
    simp only [createLifecycle, List.mem_map] at hst
    obtain ⟨name, -, rfl⟩ := hst
    exact ⟨rfl, rfl⟩

/-- Witness for C2 with the end-to-end scenario input "a bamboo toothbrush". -/
theorem C2_create_skeleton_witness :
    ∃ lc : LifecycleData,
      (apiCreate [] "id0" "a bamboo toothbrush" "t0").2 = Except.ok lc ∧
      lc.stages.length = 5 ∧
      lc.stages.map LifecycleStage.stage_name = canonicalStageNames ∧
      (lc.stages.map LifecycleStage.stage_name).head? = some "Raw Materials" ∧
      ∀ st ∈ lc.stages, st.description = "" ∧ st.image_base64 = none :=
  C2_create_skeleton [] "id0" "a bamboo toothbrush" "t0" (by decide)

/-- C3: for every stored lifecycle and every stage index outside [0,5),
`UpdateStage` fails with `InvalidIndex` and the store — hence the stored
lifecycle record, all its fields, stage slots and timestamps — is returned
entirely unmodified. -/
theorem C3_invalid_index_unchanged (s : Store) (id : String) (lc : LifecycleData)
    (idx : Int) (st : LifecycleStage) (now : String)
    (hlc : storeGet s id = some lc) (hidx : idx < 0 ∨ 5 ≤ idx) :
    updateStage s id idx st now = (s, Except.error ApiError.InvalidIndex) := by
  have hrange : ¬ (0 ≤ idx ∧ idx < 5) := by omega
  simp [updateStage, hlc, hrange]

/-- Witness for C3: a one-record store, index 5. -/
theorem C3_invalid_index_unchanged_witness :
    updateStage [("a", createLifecycle "a" "p" [] "t0")] "a" 5
        ⟨"X", "pr", "d", some "img", "t1"⟩ "t1" =
      ([("a", createLifecycle "a" "p" [] "t0")],
        Except.error ApiError.InvalidIndex) :=
  C3_invalid_index_unchanged [("a", createLifecycle "a" "p" [] "t0")] "a"
    (createLifecycle "a" "p" [] "t0") 5 ⟨"X", "pr", "d", some "img", "t1"⟩ "t1"
    (by decide) (by decide)

/-- C4: the text channel and the image channel fall back independently.  If
the provider succeeds on text and fails on image, the composed Stage holds the
provider text together with the synthesizer's fallback image; if it fails on
text and succeeds on image, the Stage holds the fallback text together with
the provider image — a failure on one channel never replaces the other
channel's successful result. -/
theorem C4_channel_independence (d : String) (c : List String) (i : Nat)
    (n t b now : String) (e e' : ProviderError) :
    ((generateStage d c i n (Except.ok t) (Except.error e) now).description = t ∧
      (generateStage d c i n (Except.ok t) (Except.error e) now).image_base64
        = some (fallbackImageBase64 i)) ∧
    ((generateStage d c i n (Except.error e') (Except.ok b) now).description
        = fallbackText n d ∧
      (generateStage d c i n (Except.error e') (Except.ok b) now).image_base64
        = some b) := by
  exact ⟨⟨rfl, rfl⟩, ⟨rfl, rfl⟩⟩

/-- C5: with the provider disabled (demo credential), stage generation is a
total function (it never raises an error), its text and image do not depend on
the network oracle, the base URL, or the timestamp — two calls for the same
product description and stage index agree — the text follows the three
paragraph stage/footprint/lever template, and the image payload carries the
synthesized-SVG signature. -/
theorem C5_demo_fallback_deterministic
    (network₁ network₂ : String → ProviderMode → Except ProviderError ProviderContent)
    (baseUrl₁ baseUrl₂ d : String) (c : List String) (i : Nat) (t₁ t₂ : String) :
    (demoStage network₁ baseUrl₁ d c i t₁).description
        = (demoStage network₂ baseUrl₂ d c i t₂).description ∧
    (demoStage network₁ baseUrl₁ d c i t₁).image_base64
        = (demoStage network₂ baseUrl₂ d c i t₂).image_base64 ∧
    (demoStage network₁ baseUrl₁ d c i t₁).description
        = stagePara (canonicalStageNames.getD i "") d ++ "\n\n" ++
            footprintPara (canonicalStageNames.getD i "") d ++ "\n\n" ++
            leverPara (canonicalStageNames.getD i "") d ∧
    (demoStage network₁ baseUrl₁ d c i t₁).description ≠ "" ∧
    ∃ img, (demoStage network₁ baseUrl₁ d c i t₁).image_base64 = some img ∧
      strStartsWith img svgSignature = true := by
  have hcall : ∀ (net : String → ProviderMode → Except ProviderError ProviderContent)
      (u p : String) (m : ProviderMode),
      providerCall net { credential := demoSentinel, baseUrl := u } p m
        = Except.error ProviderError.Unauthorized := by
    intro net u p m
    simp [providerCall]
  refine ⟨?_, ?_, ?_, ?_, ?_⟩
  · simp [demoStage, generateStage, callText, hcall]
  · simp [demoStage, generateStage, callImage, hcall]
  · simp [demoStage, generateStage, callText, hcall, fallbackText]
  · simp only [demoStage, generateStage, callText, hcall]
    exact fallbackText_ne_empty _ _
  · refine ⟨fallbackImageBase64 i, ?_, ?_⟩
    · simp [demoStage, generateStage, callImage, hcall]
    · exact strStartsWith_append svgSignature _

/-- C6: for every prompt and mode, when the Provider Client's configured
credential is the demo sentinel, the call fails with `Unauthorized`, and the
result does not depend on the network oracle at all — no network request is
attempted, so demo-mode generation always takes the fallback path. -/
theorem C6_demo_credential_unauthorized
    (network₁ network₂ : String → ProviderMode → Except ProviderError ProviderContent)
    (cfg : ProviderConfig) (prompt : String) (mode : ProviderMode)
    (h : cfg.credential = demoSentinel) :
    providerCall network₁ cfg prompt mode = Except.error ProviderError.Unauthorized ∧
    providerCall network₁ cfg prompt mode = providerCall network₂ cfg prompt mode := by
  constructor
  · simp [providerCall, h]
  · simp [providerCall, h]

/-- Witness for C6: the demo configuration against two differently behaved
network oracles. -/
theorem C6_demo_credential_unauthorized_witness :
    providerCall (fun _ _ => Except.error ProviderError.Unavailable)
        { credential := "DEMO_KEY", baseUrl := "http://example" } "p" ProviderMode.both
      = Except.error ProviderError.Unauthorized ∧
    providerCall (fun _ _ => Except.error ProviderError.Unavailable)
        { credential := "DEMO_KEY", baseUrl := "http://example" } "p" ProviderMode.both
      = providerCall (fun _ _ => Except.ok { text := some "t", imageBase64 := some "i" })
        { credential := "DEMO_KEY", baseUrl := "http://example" } "p" ProviderMode.both :=
  C6_demo_credential_unauthorized
    (fun _ _ => Except.error ProviderError.Unavailable)
    (fun _ _ => Except.ok { text := some "t", imageBase64 := some "i" })
    { credential := "DEMO_KEY", baseUrl := "http://example" } "p" ProviderMode.both
    (by decide)

namespace PLV

/-- A stage is ungenerated: empty description and null image (spec section 3). -/
def stageUngenerated (st : LifecycleStage) : Prop :=
  st.description = "" ∧ st.image_base64 = none

/-- A stage is generated: non-empty description and non-null image (spec
section 3). -/
def stageGenerated (st : LifecycleStage) : Prop :=
  st.description ≠ "" ∧ st.image_base64 ≠ none

/-- A stage is externally well formed when it is in exactly one of the two
states of the spec section 3 invariant. -/
def stageWellFormed (st : LifecycleStage) : Prop :=
  stageUngenerated st ∨ stageGenerated st

/-- A lifecycle is well formed when every stage slot is. -/
def lifecycleWellFormed (lc : LifecycleData) : Prop :=
  ∀ st ∈ lc.stages, stageWellFormed st

instance (st : LifecycleStage) : Decidable (stageUngenerated st) := by
  unfold stageUngenerated; infer_instance

instance (st : LifecycleStage) : Decidable (stageGenerated st) := by
  unfold stageGenerated; infer_instance

instance (st : LifecycleStage) : Decidable (stageWellFormed st) := by
  unfold stageWellFormed; infer_instance

instance (lc : LifecycleData) : Decidable (lifecycleWellFormed lc) := by
  unfold lifecycleWellFormed; infer_instance

/-- Modelled from the spec: the `POST /api/lifecycle/{id}/stage/{index}`
handler (sections 4.4, 4.5 and 6, Rust backend absent from src/): validate the
id and index, generate the stage from the record's description and
constraints, apply the atomic per-index update, and return the stage. -/
def apiGenerateStage (textResult imageResult : Except ProviderError String)
    (s : Store) (id : String) (idx : Int) (now : String) :
    Store × Except ApiError LifecycleStage :=
  match storeGet s id with
  | none => (s, Except.error ApiError.NotFound)
  | some lc =>
    if 0 ≤ idx ∧ idx < 5 then
      let stageName := canonicalStageNames.getD idx.toNat ""
      let st := generateStage lc.product_description lc.constraints idx.toNat
        stageName textResult imageResult now
      (storeSet s id (applyStageUpdate lc idx.toNat st now), Except.ok st)
    else
      (s, Except.error ApiError.InvalidIndex)

end PLV

/-- C7: every externally observable stage is either ungenerated or generated,
never partial: freshly created skeletons are entirely ungenerated; a stage
composed by the generator is fully populated whichever channel succeeded
(given that provider text, when accepted, is non-empty); a stage-generation
response is either an error issued before any content is attempted or a fully
populated stage; and the atomic per-index update preserves well-formedness of
the whole record. -/
theorem C7_no_partial_stage_observable :
    (∀ newId d c now st, st ∈ (createLifecycle newId d c now).stages →
      stageUngenerated st) ∧
    (∀ d c i n ir now t, t ≠ "" →
      stageGenerated (generateStage d c i n (Except.ok t) ir now)) ∧
    (∀ d c i n ir now e,
      stageGenerated (generateStage d c i n (Except.error e) ir now)) ∧
    (∀ tr ir s id idx now s' st, (∀ t, tr = Except.ok t → t ≠ "") →
      apiGenerateStage tr ir s id idx now = (s', Except.ok st) →
      stageGenerated st) ∧
    (∀ lc idx st now, lifecycleWellFormed lc → stageWellFormed st →
      lifecycleWellFormed (applyStageUpdate lc idx st now)) := by
  have hok : ∀ d c i n ir now t, t ≠ "" →
      stageGenerated (generateStage d c i n (Except.ok t) ir now) := by
    intro d c i n ir now t ht
    refine ⟨ht, ?_⟩
    cases ir <;> simp [generateStage]
  have herr : ∀ d c i n ir now e,
      stageGenerated (generateStage d c i n (Except.error e) ir now) := by
    intro d c i n ir now e
    refine ⟨fallbackText_ne_empty n d, ?_⟩
    cases ir <;> simp [generateStage]
  refine ⟨?_, hok, herr, ?_, ?_⟩
  · intro newId d c now st hst
    simp only [createLifecycle, List.mem_map] at hst
    obtain ⟨name, -, rfl⟩ := hst
    exact ⟨rfl, rfl⟩
  · intro tr ir s id idx now s' st htr heq
    unfold apiGenerateStage at heq
    split at heq
    · simp at heq
    · split at heq
      · simp only [Prod.mk.injEq, Except.ok.injEq] at heq
        obtain ⟨-, h2⟩ := heq
        subst h2
        cases htrc : tr with
        | ok t => exact hok _ _ _ _ _ _ t (htr t htrc)
        | error e => exact herr _ _ _ _ _ _ e
      · simp at heq
  · intro lc idx st now hlc hst st' hst'
    simp only [applyStageUpdate] at hst'
    rcases List.mem_or_eq_of_mem_set hst' with hmem | rfl
    · exact hlc st' hmem
    · exact hst

/-- Witness for C7: the skeleton stage at index 0, generated stages on each
channel split, a concrete successful stage-generation response, and a concrete
preserved update. -/
theorem C7_no_partial_stage_observable_witness :
    stageUngenerated
      { stage_name := "Raw Materials", prompt := "", description := "",
        image_base64 := none, last_updated := "t0" } ∧
    stageGenerated (generateStage "p" [] 0 "Raw Materials" (Except.ok "txt")
      (Except.error ProviderError.Unavailable) "t1") ∧
    stageGenerated (generateStage "p" [] 0 "Raw Materials"
      (Except.error ProviderError.Unauthorized) (Except.ok "img") "t1") ∧
    stageGenerated (generateStage "p" [] 0 "Raw Materials" (Except.ok "txt")
      (Except.ok "img") "t1") ∧
    lifecycleWellFormed (applyStageUpdate (createLifecycle "a" "p" [] "t0") 0
      (generateStage "p" [] 0 "Raw Materials" (Except.ok "txt")
        (Except.ok "img") "t1") "t1") := by
  refine ⟨?_, ?_, ?_, ?_, ?_⟩
  · exact C7_no_partial_stage_observable.1 "a" "p" [] "t0" _
      (by simp [createLifecycle, canonicalStageNames])
  · exact C7_no_partial_stage_observable.2.1 "p" [] 0 "Raw Materials" _ "t1"
      "txt" (by decide)
  · exact C7_no_partial_stage_observable.2.2.1 "p" [] 0 "Raw Materials" _ "t1"
      ProviderError.Unauthorized
  · exact C7_no_partial_stage_observable.2.2.2.1 (Except.ok "txt")
      (Except.ok "img") [("a", createLifecycle "a" "p" [] "t0")] "a" 0 "t1"
      (apiGenerateStage (Except.ok "txt") (Except.ok "img")
        [("a", createLifecycle "a" "p" [] "t0")] "a" 0 "t1").1
      (generateStage "p" [] 0 "Raw Materials" (Except.ok "txt")
        (Except.ok "img") "t1")
      (fun t h => by cases h; decide)
      rfl
  · exact C7_no_partial_stage_observable.2.2.2.2
      (createLifecycle "a" "p" [] "t0") 0
      (generateStage "p" [] 0 "Raw Materials" (Except.ok "txt")
        (Except.ok "img") "t1") "t1"
      (by decide) (by decide)

namespace PLV

/-- The observable outcome of one stage fetch in `generateLifecycle`
(frontend/app/page.tsx lines 969-981): a response that is ok and whose JSON
body parses (`ok`), a response carrying a non-ok HTTP status (`httpError`),
or a rejected `fetch` / throwing `stageResponse.json()` whose exception
escapes to the catch wrapping the loop (`thrown`). -/
inductive StageResponse
  | ok (st : LifecycleStage)
  | httpError
  | thrown
deriving Repr, DecidableEq

/-- Observable steps of the presentation client's generation loop in
`generateLifecycle` (frontend/app/page.tsx): issuing the stage request for an
index, applying a successful response, skipping a non-ok response via
`continue`, or aborting the loop when an exception reaches the catch at
line 1006. -/
inductive ClientEvent
  | request (i : Nat)
  | applied (i : Nat)
  | skipped (i : Nat)
  | aborted (i : Nat)
deriving Repr, DecidableEq

/-- The client-side stage update from `generateLifecycle`
(frontend/app/page.tsx lines 988-997): copy the stage array, overwrite slot
`i` with the response, and refresh `updated_at`; all other fields are spread
unchanged. -/
def clientApplyStage (lc : LifecycleData) (i : Nat) (st : LifecycleStage)
    (now : String) : LifecycleData :=
  { lc with stages := lc.stages.set i st, updated_at := now }

/-- The per-index loop of `generateLifecycle` (frontend/app/page.tsx lines
963-1008): for each index in order, await the stage request; a non-ok HTTP
status logs and `continue`s to the next index; a successful response is
applied to the held lifecycle before the next iteration; a thrown exception
(rejected `fetch` or failing body parse) propagates to the try/catch wrapping
the whole loop and stops the remaining iterations, keeping the updates applied
so far.  The backend's behaviour is abstracted as `resp`, and the client's
`new Date().toISOString()` stamps as `now`. -/
def clientRun (resp : Nat → StageResponse) (now : Nat → String) :
    List Nat → LifecycleData → List ClientEvent × LifecycleData
  | [], lc => ([], lc)
  | i :: rest, lc =>
    match resp i with
    | StageResponse.thrown =>
      ([ClientEvent.request i, ClientEvent.aborted i], lc)
    | StageResponse.httpError =>
      let r := clientRun resp now rest lc
      (ClientEvent.request i :: ClientEvent.skipped i :: r.1, r.2)
    | StageResponse.ok st =>
      let r := clientRun resp now rest (clientApplyStage lc i st (now i))
      (ClientEvent.request i :: ClientEvent.applied i :: r.1, r.2)

/-- The stage-generation phase of `generateLifecycle`
(frontend/app/page.tsx): after the skeleton is created, the five stage
indices are requested in increasing order. -/
def generateLifecycleClient (resp : Nat → StageResponse)
    (now : Nat → String) (skeleton : LifecycleData) :
    List ClientEvent × LifecycleData :=
  clientRun resp now (List.range 5) skeleton

/-- The trace entries the loop produces for one index, as a function of that
index's response outcome. -/
def perIndexEvents (resp : Nat → StageResponse) (i : Nat) : List ClientEvent :=
  [ClientEvent.request i,
    match resp i with
    | StageResponse.ok _ => ClientEvent.applied i
    | StageResponse.httpError => ClientEvent.skipped i
    | StageResponse.thrown => ClientEvent.aborted i]

/-- The lifecycle update the loop applies for one index, as a function of that
index's response outcome. -/
def perIndexUpdate (resp : Nat → StageResponse) (now : Nat → String)
    (lc : LifecycleData) (i : Nat) : LifecycleData :=
  match resp i with
  | StageResponse.ok st => clientApplyStage lc i st (now i)
  | StageResponse.httpError => lc
  | StageResponse.thrown => lc

end PLV

theorem PLV.clientRun_no_throw (resp : Nat → StageResponse)
    (now : Nat → String) :
    ∀ (idxs : List Nat) (lc : LifecycleData),
      (∀ i ∈ idxs, resp i ≠ StageResponse.thrown) →
      clientRun resp now idxs lc
        = ((idxs.map (perIndexEvents resp)).flatten,
            idxs.foldl (perIndexUpdate resp now) lc) := by
  intro idxs
  induction idxs with
  | nil => intro lc h; rfl
  | cons i rest ih =>
    intro lc h
    have hi : resp i ≠ StageResponse.thrown := h i (List.mem_cons_self i rest)
    have hrest : ∀ k ∈ rest, resp k ≠ StageResponse.thrown :=
      fun k hk => h k (List.mem_cons_of_mem i hk)
    cases hresp : resp i with
    | thrown => exact absurd hresp hi
    | httpError =>
      simp [clientRun, hresp, ih lc hrest, perIndexEvents, perIndexUpdate]
    | ok st =>
      simp [clientRun, hresp, ih (clientApplyStage lc i st (now i)) hrest,
        perIndexEvents, perIndexUpdate]

theorem PLV.clientRun_abort (resp : Nat → StageResponse) (now : Nat → String) :
    ∀ (pre : List Nat) (j : Nat) (suf : List Nat) (lc : LifecycleData),
      (∀ i ∈ pre, resp i ≠ StageResponse.thrown) →
      resp j = StageResponse.thrown →
      clientRun resp now (pre ++ j :: suf) lc
        = ((pre.map (perIndexEvents resp)).flatten
            ++ [ClientEvent.request j, ClientEvent.aborted j],
           pre.foldl (perIndexUpdate resp now) lc) := by
  intro pre
  induction pre with
  | nil =>
    intro j suf lc hpre hj
    simp [clientRun, hj]
  | cons p ps ih =>
    intro j suf lc hpre hj
    have hp : resp p ≠ StageResponse.thrown := hpre p (List.mem_cons_self p ps)
    have hps : ∀ i ∈ ps, resp i ≠ StageResponse.thrown :=
      fun i hi => hpre i (List.mem_cons_of_mem p hi)
    cases hresp : resp p with
    | thrown => exact absurd hresp hp
    | httpError =>
      simp [clientRun, hresp, ih j suf lc hps hj, perIndexEvents,
        perIndexUpdate]
    | ok st =>
      simp [clientRun, hresp,
        ih j suf (clientApplyStage lc p st (now p)) hps hj, perIndexEvents,
        perIndexUpdate]

/-- Counterexample to C8 as stated: with a backend whose stage fetch throws
(e.g. the backend is unreachable, so `fetch` rejects), the request for index 0
is issued and fails, and index 1 is never requested — the exception escapes
the loop to the catch at frontend/app/page.tsx line 1006, so a failed stage
request can stop the remaining indices. -/
theorem C8_sequential_stage_loop_counterexample :
    ClientEvent.request 0 ∈
      (generateLifecycleClient (fun _ => StageResponse.thrown) (fun _ => "t1")
        (createLifecycle "a" "p" [] "t0")).1 ∧
    ClientEvent.request 1 ∉
      (generateLifecycleClient (fun _ => StageResponse.thrown) (fun _ => "t1")
        (createLifecycle "a" "p" [] "t0")).1 := by
  decide

/-- C8 (amended): the client requests stage generation one index at a time in
increasing order 0..4, handling each index's response (applying it on
success, skipping it on a non-ok HTTP status) before issuing the next
request.  As long as no request throws, a failed (non-ok) stage request skips
that stage without stopping the remaining indices, and the final held
lifecycle is the in-order fold of the successful updates over the skeleton;
but a stage request whose fetch rejects or whose body fails to parse aborts
the loop after the first `j` in-order per-index rounds, leaving the remaining
indices unrequested and the lifecycle at the fold of the updates applied
before the exception. -/
theorem C8_sequential_stage_loop (resp : Nat → StageResponse)
    (now : Nat → String) (skeleton : LifecycleData) :
    ((∀ i, i < 5 → resp i ≠ StageResponse.thrown) →
      (generateLifecycleClient resp now skeleton).1
          = ((List.range 5).map (perIndexEvents resp)).flatten ∧
      (generateLifecycleClient resp now skeleton).2
          = (List.range 5).foldl (perIndexUpdate resp now) skeleton) ∧
    (∀ j, j < 5 → resp j = StageResponse.thrown →
      (∀ i, i < j → resp i ≠ StageResponse.thrown) →
      (generateLifecycleClient resp now skeleton).1
          = ((List.range j).map (perIndexEvents resp)).flatten
              ++ [ClientEvent.request j, ClientEvent.aborted j] ∧
      (generateLifecycleClient resp now skeleton).2
          = (List.range j).foldl (perIndexUpdate resp now) skeleton) := by
  constructor
  · intro h
    have hrun := clientRun_no_throw resp now (List.range 5) skeleton
      (fun i hi => h i (List.mem_range.mp hi))
    constructor
    · show (clientRun resp now (List.range 5) skeleton).1 = _
      rw [hrun]
    · show (clientRun resp now (List.range 5) skeleton).2 = _
      rw [hrun]
  · intro j hj hthrow hpre
    have hdecomp : List.range 5
        = List.range j ++ j :: ((List.range (4 - j)).map (fun t => j + 1 + t)) := by
      interval_cases j <;> rfl
    have hrun := clientRun_abort resp now (List.range j) j
      ((List.range (4 - j)).map (fun t => j + 1 + t)) skeleton
      (fun i hi => hpre i (List.mem_range.mp hi)) hthrow
    constructor
    · show (clientRun resp now (List.range 5) skeleton).1 = _
      rw [hdecomp, hrun]
    · show (clientRun resp now (List.range 5) skeleton).2 = _
      rw [hdecomp, hrun]

/-- Witness for C8: a run whose index-2 request answers with a non-ok HTTP
status yet all five indices are requested, and a run whose index-1 request
throws and aborts after its round. -/
theorem C8_sequential_stage_loop_witness :
    ((generateLifecycleClient
        (fun i => if i = 2 then StageResponse.httpError
          else StageResponse.ok ⟨"X", "pr", "d", some "im", "tx"⟩)
        (fun _ => "t1") (createLifecycle "a" "p" [] "t0")).1
      = ((List.range 5).map (perIndexEvents
          (fun i => if i = 2 then StageResponse.httpError
            else StageResponse.ok ⟨"X", "pr", "d", some "im", "tx"⟩))).flatten ∧
     (generateLifecycleClient
        (fun i => if i = 2 then StageResponse.httpError
          else StageResponse.ok ⟨"X", "pr", "d", some "im", "tx"⟩)
        (fun _ => "t1") (createLifecycle "a" "p" [] "t0")).2
      = (List.range 5).foldl (perIndexUpdate
          (fun i => if i = 2 then StageResponse.httpError
            else StageResponse.ok ⟨"X", "pr", "d", some "im", "tx"⟩)
          (fun _ => "t1")) (createLifecycle "a" "p" [] "t0")) ∧
    ((generateLifecycleClient
        (fun i => if i = 1 then StageResponse.thrown
          else StageResponse.ok ⟨"X", "pr", "d", some "im", "tx"⟩)
        (fun _ => "t1") (createLifecycle "a" "p" [] "t0")).1
      = ((List.range 1).map (perIndexEvents
          (fun i => if i = 1 then StageResponse.thrown
            else StageResponse.ok ⟨"X", "pr", "d", some "im", "tx"⟩))).flatten
          ++ [ClientEvent.request 1, ClientEvent.aborted 1] ∧
     (generateLifecycleClient
        (fun i => if i = 1 then StageResponse.thrown
          else StageResponse.ok ⟨"X", "pr", "d", some "im", "tx"⟩)
        (fun _ => "t1") (createLifecycle "a" "p" [] "t0")).2
      = (List.range 1).foldl (perIndexUpdate
          (fun i => if i = 1 then StageResponse.thrown
            else StageResponse.ok ⟨"X", "pr", "d", some "im", "tx"⟩)
          (fun _ => "t1")) (createLifecycle "a" "p" [] "t0")) :=
  ⟨(C8_sequential_stage_loop
      (fun i => if i = 2 then StageResponse.httpError
        else StageResponse.ok ⟨"X", "pr", "d", some "im", "tx"⟩)
      (fun _ => "t1") (createLifecycle "a" "p" [] "t0")).1 (by decide),
   (C8_sequential_stage_loop
      (fun i => if i = 1 then StageResponse.thrown
        else StageResponse.ok ⟨"X", "pr", "d", some "im", "tx"⟩)
      (fun _ => "t1") (createLifecycle "a" "p" [] "t0")).2 1 (by decide)
      (by decide) (by decide)⟩

/-- C9: applying the stage response for index `i` replaces only the stage slot
at `i` and the `updated_at` timestamp; `id`, `product_description`,
`constraints`, `created_at`, the number of stage slots, and every stage slot
at an index other than `i` are left unchanged. -/
theorem C9_stage_update_frame (lc : LifecycleData) (i : Nat)
    (st : LifecycleStage) (now : String) :
    (clientApplyStage lc i st now).id = lc.id ∧
    (clientApplyStage lc i st now).product_description
      = lc.product_description ∧
    (clientApplyStage lc i st now).constraints = lc.constraints ∧
    (clientApplyStage lc i st now).created_at = lc.created_at ∧
    (clientApplyStage lc i st now).updated_at = now ∧
    (clientApplyStage lc i st now).stages.length = lc.stages.length ∧
    (∀ j, j ≠ i → (clientApplyStage lc i st now).stages[j]? = lc.stages[j]?) ∧
    (i < lc.stages.length →
      (clientApplyStage lc i st now).stages[i]? = some st) := by
  refine ⟨rfl, rfl, rfl, rfl, rfl, by simp [clientApplyStage], ?_, ?_⟩
  · intro j hj
    simp [clientApplyStage, List.getElem?_set_ne (Ne.symm hj)]
  · intro hi
    simp [clientApplyStage, List.getElem?_set_self hi]

/-- Witness for C9 on a concrete skeleton, updating index 1 and inspecting
index 0. -/
theorem C9_stage_update_frame_witness :
    (clientApplyStage (createLifecycle "a" "p" [] "t0") 1
        ⟨"Manufacturing", "pr", "d", some "img", "t1"⟩ "t1").stages[0]?
      = (createLifecycle "a" "p" [] "t0").stages[0]? ∧
    (clientApplyStage (createLifecycle "a" "p" [] "t0") 1
        ⟨"Manufacturing", "pr", "d", some "img", "t1"⟩ "t1").stages[1]?
      = some ⟨"Manufacturing", "pr", "d", some "img", "t1"⟩ :=
  ⟨(C9_stage_update_frame (createLifecycle "a" "p" [] "t0") 1
      ⟨"Manufacturing", "pr", "d", some "img", "t1"⟩ "t1").2.2.2.2.2.2.1 0
      (by decide),
    (C9_stage_update_frame (createLifecycle "a" "p" [] "t0") 1
      ⟨"Manufacturing", "pr", "d", some "img", "t1"⟩ "t1").2.2.2.2.2.2.2
      (by decide)⟩

namespace PLV

/-- Card width in pixels, from `HTMLCardOverlay` (frontend/app/page.tsx). -/
def cardW : ℚ := 250

/-- Card height in pixels, from `HTMLCardOverlay` (frontend/app/page.tsx). -/
def cardH : ℚ := 300

/-- Viewport margin in pixels, from `HTMLCardOverlay` (frontend/app/page.tsx). -/
def cardMargin : ℚ := 12

/-- Sibling padding in pixels, from `HTMLCardOverlay` (frontend/app/page.tsx). -/
def cardPadding : ℚ := 12

/-- A DOM bounding rectangle of an earlier-indexed card, as read through
`getBoundingClientRect` in `HTMLCardOverlay` (frontend/app/page.tsx). -/
structure DomRect where
  left : ℚ
  top : ℚ
  width : ℚ
  height : ℚ
deriving Repr, DecidableEq

/-- One iteration of the overlap-avoidance loop of `updateScreenPosition`
(frontend/app/page.tsx lines 153-180): when the candidate card rectangle
overlaps an earlier card's rectangle, shift it below, above, to the right of
or to the left of that rectangle when there is room, preferring vertical
shifts; otherwise leave it in place. -/
def nudgeAgainst (innerW innerH : ℚ) (pos : ℚ × ℚ) (r : DomRect) : ℚ × ℚ :=
  let finalLeft := pos.1
  let finalTop := pos.2
  let overlapX :=
    max 0 (min (finalLeft + cardW) (r.left + r.width) - max finalLeft r.left)
  let overlapY :=
    max 0 (min (finalTop + cardH) (r.top + r.height) - max finalTop r.top)
  if 0 < overlapX ∧ 0 < overlapY then
    let spaceBelow := innerH - ((r.top + r.height) + cardPadding + cardH)
    let spaceAbove := r.top - cardPadding - cardH
    if spaceAbove < spaceBelow ∧ 0 < spaceBelow then
      (finalLeft, r.top + r.height + cardPadding)
    else if 0 < spaceAbove then
      (finalLeft, r.top - cardPadding - cardH)
    else
      let spaceRight := innerW - ((r.left + r.width) + cardPadding + cardW)
      let spaceLeft := r.left - cardPadding - cardW
      if spaceLeft < spaceRight ∧ 0 < spaceRight then
        (r.left + r.width + cardPadding, finalTop)
      else if 0 < spaceLeft then
        (r.left - cardPadding - cardW, finalTop)
      else
        (finalLeft, finalTop)
  else
    (finalLeft, finalTop)

/-- `updateScreenPosition` from `HTMLCardOverlay` (frontend/app/page.tsx lines
122-187): clamp the projected card center into the viewport, run the
overlap-avoidance nudge over the earlier cards' rectangles, then re-clamp.
The result is the final card rectangle's top-left corner — the stored state is
the center, and the rendered style subtracts half the card size again. -/
def updateScreenPosition (innerW innerH x y : ℚ) (earlier : List DomRect) :
    ℚ × ℚ :=
  let cx := min (innerW - cardMargin - cardW / 2) (max (cardMargin + cardW / 2) x)
  let cy := min (innerH - cardMargin - cardH / 2) (max (cardMargin + cardH / 2) y)
  let desiredLeft := cx - cardW / 2
  let desiredTop := cy - cardH / 2
  let nudged := earlier.foldl (nudgeAgainst innerW innerH) (desiredLeft, desiredTop)
  (min (innerW - cardMargin - cardW) (max cardMargin nudged.1),
   min (innerH - cardMargin - cardH) (max cardMargin nudged.2))

end PLV

/-- C10: whenever the viewport is at least 274 pixels wide and 324 pixels
tall, the final computed card rectangle lies entirely inside the viewport —
its left in [12, innerWidth - 12 - 250] and its top in
[12, innerHeight - 12 - 300] — for every projected position and every set of
earlier card rectangles, because positions are re-clamped after the
overlap-avoidance nudge. -/
theorem C10_card_stays_in_viewport (W H x y : ℚ) (earlier : List DomRect)
    (hW : 274 ≤ W) (hH : 324 ≤ H) :
    cardMargin ≤ (updateScreenPosition W H x y earlier).1 ∧
    (updateScreenPosition W H x y earlier).1 ≤ W - cardMargin - cardW ∧
    cardMargin ≤ (updateScreenPosition W H x y earlier).2 ∧
    (updateScreenPosition W H x y earlier).2 ≤ H - cardMargin - cardH := by
  have h1 : cardMargin ≤ W - cardMargin - cardW := by
    simp only [cardMargin, cardW]; linarith
  have h2 : cardMargin ≤ H - cardMargin - cardH := by
    simp only [cardMargin, cardH]; linarith
  simp only [updateScreenPosition]
  exact ⟨le_min h1 (le_max_left _ _), min_le_left _ _,
    le_min h2 (le_max_left _ _), min_le_left _ _⟩

/-- Witness for C10: a 1280x800 viewport, a far off-screen projection, and one
earlier card rectangle to nudge against. -/
theorem C10_card_stays_in_viewport_witness :
    cardMargin ≤ (updateScreenPosition 1280 800 5000 (-3)
        [⟨0, 0, 300, 300⟩]).1 ∧
    (updateScreenPosition 1280 800 5000 (-3) [⟨0, 0, 300, 300⟩]).1
      ≤ 1280 - cardMargin - cardW ∧
    cardMargin ≤ (updateScreenPosition 1280 800 5000 (-3)
        [⟨0, 0, 300, 300⟩]).2 ∧
    (updateScreenPosition 1280 800 5000 (-3) [⟨0, 0, 300, 300⟩]).2
      ≤ 800 - cardMargin - cardH :=
  C10_card_stays_in_viewport 1280 800 5000 (-3) [⟨0, 0, 300, 300⟩]
    (by decide) (by decide)
